import Mathlib

/-!
Verification of `src/tools/qwen_image_pipeline.py`.

The script is glue over an external ML library (model loading, chat-template
formatting, generation, decoding, and a high-level pipeline callable).  We
embed the script's data (the message literal, the statement sequence it
executes) directly from the source, and model the external library as a
structure of functions `Lib` together with a contract `LibSpec` transcribed
from the specification's description of the external collaborator (spec
sections 3, 6 and glossary).
-/

namespace Qwen

/-- A content part of a chat message: either an image reference carrying a
URL string, or a text fragment carrying a string
(source: the `"type": "image"` / `"type": "text"` dicts). -/
inductive ContentPart where
  | image (url : String)
  | text (s : String)
deriving DecidableEq, Repr

/-- A chat message: a role together with an ordered list of content parts
(source: the dict with keys `"role"` and `"content"`). -/
structure Message where
  role : String
  content : List ContentPart
deriving DecidableEq, Repr

/-- The checkpoint identifier literal used at every call site of the script. -/
def qwenCkpt : String := "Qwen/Qwen3-VL-8B-Instruct"

/-- The image URL literal of the script. -/
def candyURL : String :=
  "https://huggingface.co/datasets/huggingface/documentation-images/resolve/main/p-blog/candy.JPG"

/-- The `messages` literal of the script: one user turn holding one image
part followed by one text part.  The same literal appears four times in the
file (twice per copy); all four occurrences are character-identical. -/
def messages : List Message :=
  [⟨"user", [ContentPart.image candyURL,
             ContentPart.text "What animal is on the candy?"]⟩]

/-- Modelled from the spec: the external library ("external collaborator",
spec section 6).  `applyChatTemplate` is the prompt-formatting subsystem
returning the tokenized `input_ids`; `generate` is the generation subsystem
taking input ids, a max-new-token bound, an optional sampling configuration
(the script passes none) and a run seed, returning the full output token
sequence; `decode` converts token sequences back to text; `pipeGenCap` is
the pipeline's internal generation bound (not set by the script); `pipeCall`
is the high-level pipeline callable. -/
structure Lib where
  applyChatTemplate : List Message → List Nat
  generate : List Nat → Nat → Option Nat → Nat → List Nat
  decode : List Nat → String
  pipeGenCap : Nat
  pipeCall : List Message → Nat → String

/-- Modelled from the spec: the contract of the external library.
`gen_extends`: the generation result is the input span followed by at most
`cap` newly produced tokens (spec: "a token sequence returned by the
generation step; the script retains only the suffix beyond the original
input length (i.e., newly produced tokens)").
`gen_greedy`: with no sampling configuration, generation is deterministic
across runs (spec: "implicitly deterministic/greedy since no sampling
parameters are set").
`decode_nil`: the decoding subsystem maps the empty token sequence to the
empty string.
`pipe_bundles`: the pipeline callable bundles formatting, generation (at the
pipeline's own internal bound) and decoding of the newly generated span
(spec glossary: "a single callable bundling model loading, input formatting,
generation, and decoding behind one task-specific interface"). -/
structure LibSpec (lib : Lib) : Prop where
  gen_extends : ∀ inp cap cfg seed, ∃ new,
    lib.generate inp cap cfg seed = inp ++ new ∧ new.length ≤ cap
  gen_greedy : ∀ inp cap s1 s2,
    lib.generate inp cap none s1 = lib.generate inp cap none s2
  decode_nil : lib.decode [] = ""
  pipe_bundles : ∀ msgs seed, lib.pipeCall msgs seed =
    lib.decode ((lib.generate (lib.applyChatTemplate msgs) lib.pipeGenCap
      none seed).drop (lib.applyChatTemplate msgs).length)

/-- `input_ids` of the direct-API workflow for a given message list
(source: `inputs = processor.apply_chat_template(messages, ...)`). -/
def inputIdsFor (lib : Lib) (msgs : List Message) : List Nat :=
  lib.applyChatTemplate msgs

/-- Output sequence of the direct-API generation call for a given message
list (source: `outputs = model.generate(**inputs, max_new_tokens=40)`). -/
def outputsFor (lib : Lib) (msgs : List Message) (seed : Nat) : List Nat :=
  lib.generate (inputIdsFor lib msgs) 40 none seed

/-- The decoded, printed text of the direct-API workflow for a given message
list (source:
`print(processor.decode(outputs[0][inputs["input_ids"].shape[-1]:]))`). -/
def directAnswerFor (lib : Lib) (msgs : List Message) (seed : Nat) : String :=
  lib.decode ((outputsFor lib msgs seed).drop (inputIdsFor lib msgs).length)

/-- The direct-API workflow's printed answer on the script's own literal. -/
def directAnswer (lib : Lib) (seed : Nat) : String :=
  directAnswerFor lib messages seed

/-- The pipeline workflow's answer expression (source: `pipe(text=messages)`). -/
def pipeAnswerFor (lib : Lib) (msgs : List Message) (seed : Nat) : String :=
  lib.pipeCall msgs seed

/-- The pipeline workflow's answer on the script's own literal. -/
def pipeAnswer (lib : Lib) (seed : Nat) : String :=
  pipeAnswerFor lib messages seed

/-- Well-formedness of a message list as the claims state it: exactly one
turn, role `"user"`, content exactly one image part followed by one text
part. -/
def wellFormedList : List Message → Bool
  | [⟨r, [ContentPart.image _, ContentPart.text _]⟩] => r == "user"
  | _ => false

/-! ## Statement-level embedding of the script

Each top-level Python statement of `qwen_image_pipeline.py` is one `Stmt`
constructor, carrying the literals appearing at that statement.  The
`tryExcept` constructor exists so that the absence of exception handlers in
the script is a contentful property of the transcription; it is not used by
`moduleStmts`. -/

/-- One top-level statement of the script. -/
inductive Stmt where
  | importFrom (module : String) (names : List String)
  | assignProcessor (ckpt : String)
  | assignModel (ckpt : String)
  | assignMessages (msgs : List Message)
  | assignInputs (addGenerationPrompt tokenize returnDict : Bool)
      (returnTensors : String)
  | assignOutputs (maxNewTokens : Nat)
  | printDecodeNewTokens
  | assignPipe (task : String) (ckpt : String)
  | exprPipeCall
  | tryExcept (body : Stmt) (handler : Stmt)
deriving DecidableEq, Repr

/-- Whether a statement contains a `try`/`except` handler anywhere. -/
def hasHandler : Stmt → Bool
  | Stmt.tryExcept _ _ => true
  | _ => false

/-- Variable names a statement reads (from the source expressions). -/
def readsOf : Stmt → List String
  | Stmt.importFrom _ _ => []
  | Stmt.assignProcessor _ => []
  | Stmt.assignModel _ => []
  | Stmt.assignMessages _ => []
  | Stmt.assignInputs _ _ _ _ => ["processor", "messages", "model"]
  | Stmt.assignOutputs _ => ["model", "inputs"]
  | Stmt.printDecodeNewTokens => ["processor", "outputs", "inputs"]
  | Stmt.assignPipe _ _ => []
  | Stmt.exprPipeCall => ["pipe", "messages"]
  | Stmt.tryExcept b h => readsOf b ++ readsOf h

/-- Variable names a statement binds (assignment targets in the source). -/
def writesOf : Stmt → List String
  | Stmt.importFrom _ ns => ns
  | Stmt.assignProcessor _ => ["processor"]
  | Stmt.assignModel _ => ["model"]
  | Stmt.assignMessages _ => ["messages"]
  | Stmt.assignInputs _ _ _ _ => ["inputs"]
  | Stmt.assignOutputs _ => ["outputs"]
  | Stmt.printDecodeNewTokens => []
  | Stmt.assignPipe _ _ => ["pipe"]
  | Stmt.exprPipeCall => []
  | Stmt.tryExcept b h => writesOf b ++ writesOf h

/-- A statement list is self-contained when every variable a statement reads
was bound by an earlier statement of the same list: it receives no data from
outside the list. -/
def selfContained (stmts : List Stmt) : Bool :=
  (stmts.foldl
    (fun st s =>
      ((st.1 && (readsOf s).all (fun v => st.2.contains v)),
       st.2 ++ writesOf s))
    ((true : Bool), ([] : List String))).1

/-- The direct-API section of one copy of the file
(source lines 1-24 of the first copy). -/
def directSection : List Stmt :=
  [Stmt.importFrom "transformers" ["AutoProcessor", "AutoModelForVision2Seq"],
   Stmt.assignProcessor qwenCkpt,
   Stmt.assignModel qwenCkpt,
   Stmt.assignMessages messages,
   Stmt.assignInputs true true true "pt",
   Stmt.assignOutputs 40,
   Stmt.printDecodeNewTokens]

/-- The pipeline section of one copy of the file
(source lines 25-37 of the first copy). -/
def pipeSection : List Stmt :=
  [Stmt.importFrom "transformers" ["pipeline"],
   Stmt.assignPipe "image-text-to-text" qwenCkpt,
   Stmt.assignMessages messages,
   Stmt.exprPipeCall]

/-- One copy of the direct-API-then-pipeline sequence. -/
def moduleRound : List Stmt := directSection ++ pipeSection

/-- The whole file: the full transcription of all 73 source lines, statement
by statement.  The file holds the direct-API-then-pipeline sequence twice,
character-identically. -/
def moduleStmts : List Stmt :=
  [Stmt.importFrom "transformers" ["AutoProcessor", "AutoModelForVision2Seq"],
   Stmt.assignProcessor qwenCkpt,
   Stmt.assignModel qwenCkpt,
   Stmt.assignMessages messages,
   Stmt.assignInputs true true true "pt",
   Stmt.assignOutputs 40,
   Stmt.printDecodeNewTokens,
   Stmt.importFrom "transformers" ["pipeline"],
   Stmt.assignPipe "image-text-to-text" qwenCkpt,
   Stmt.assignMessages messages,
   Stmt.exprPipeCall,
   Stmt.importFrom "transformers" ["AutoProcessor", "AutoModelForVision2Seq"],
   Stmt.assignProcessor qwenCkpt,
   Stmt.assignModel qwenCkpt,
   Stmt.assignMessages messages,
   Stmt.assignInputs true true true "pt",
   Stmt.assignOutputs 40,
   Stmt.printDecodeNewTokens,
   Stmt.importFrom "transformers" ["pipeline"],
   Stmt.assignPipe "image-text-to-text" qwenCkpt,
   Stmt.assignMessages messages,
   Stmt.exprPipeCall]

/-- The mutable bindings of the script that carry data between statements. -/
structure PyEnv where
  messages : List Message
  inputIds : List Nat
  outputs : List Nat
deriving Repr

/-- The environment before the first statement runs (no binding yet; the
fields hold inert defaults that every run overwrites before reading). -/
def initEnv : PyEnv := ⟨[], [], []⟩

/-- One step of the total (non-failing) semantics.  Returns the new
environment, the strings printed to standard output, and the values an
interactive interpreter would additionally display for a bare expression
statement. -/
def step (lib : Lib) (seed : Nat) (env : PyEnv) :
    Stmt → PyEnv × List String × List String
  | Stmt.importFrom _ _ => (env, [], [])
  | Stmt.assignProcessor _ => (env, [], [])
  | Stmt.assignModel _ => (env, [], [])
  | Stmt.assignMessages m => ({ env with messages := m }, [], [])
  | Stmt.assignInputs _ _ _ _ =>
      ({ env with inputIds := lib.applyChatTemplate env.messages }, [], [])
  | Stmt.assignOutputs cap =>
      ({ env with outputs := lib.generate env.inputIds cap none seed }, [], [])
  | Stmt.printDecodeNewTokens =>
      (env, [lib.decode (env.outputs.drop env.inputIds.length)], [])
  | Stmt.assignPipe _ _ => (env, [], [])
  | Stmt.exprPipeCall => (env, [], [lib.pipeCall env.messages seed])
  | Stmt.tryExcept b _ => step lib seed env b

/-- Run a statement list: final environment, printed output, and the output
an interactive interpreter shows (prints interleaved with displayed
expression values, in statement order). -/
def run (lib : Lib) (seed : Nat) :
    List Stmt → PyEnv → PyEnv × List String × List String
  | [], env => (env, [], [])
  | s :: rest, env =>
      let r := step lib seed env s
      let t := run lib seed rest r.1
      (t.1, r.2.1 ++ t.2.1, (r.2.1 ++ r.2.2) ++ t.2.2)

/-- What a plain `python qwen_image_pipeline.py` run writes to standard
output. -/
def scriptOutput (lib : Lib) (seed : Nat) (stmts : List Stmt) : List String :=
  (run lib seed stmts initEnv).2.1

/-- What an interactive interpreter shows when fed the same statements:
prints plus the displayed values of bare expression statements. -/
def replOutput (lib : Lib) (seed : Nat) (stmts : List Stmt) : List String :=
  (run lib seed stmts initEnv).2.2

/-! ## Fallible semantics

Every external-library call may fail (checkpoint resolution, malformed
input, resource exhaustion — spec section 7).  `LibE` is the library with
every operation returning `Except`; `runE` executes the script under it,
stopping at the first error.  Since `moduleStmts` holds no `tryExcept`,
errors reach the process boundary unmodified. -/

/-- Modelled from the spec: the external library with fallible operations
(spec section 7: resolution failure, malformed input, resource
exhaustion). -/
structure LibE (ε : Type) where
  loadProcessor : String → Except ε Unit
  loadModel : String → Except ε Unit
  applyChatTemplate : List Message → Except ε (List Nat)
  generate : List Nat → Nat → Except ε (List Nat)
  decode : List Nat → Except ε String
  loadPipe : String → String → Except ε Unit
  pipeCall : List Message → Except ε String

/-- One step of the fallible semantics: new environment plus printed
output, or the library's error. -/
def stepE {ε : Type} (L : LibE ε) (env : PyEnv) :
    Stmt → Except ε (PyEnv × List String)
  | Stmt.importFrom _ _ => Except.ok (env, [])
  | Stmt.assignProcessor c =>
      (L.loadProcessor c).map (fun _ => (env, []))
  | Stmt.assignModel c =>
      (L.loadModel c).map (fun _ => (env, []))
  | Stmt.assignMessages m => Except.ok ({ env with messages := m }, [])
  | Stmt.assignInputs _ _ _ _ =>
      (L.applyChatTemplate env.messages).map
        (fun ids => ({ env with inputIds := ids }, []))
  | Stmt.assignOutputs cap =>
      (L.generate env.inputIds cap).map
        (fun out => ({ env with outputs := out }, []))
  | Stmt.printDecodeNewTokens =>
      (L.decode (env.outputs.drop env.inputIds.length)).map
        (fun s => (env, [s]))
  | Stmt.assignPipe t c =>
      (L.loadPipe t c).map (fun _ => (env, []))
  | Stmt.exprPipeCall =>
      (L.pipeCall env.messages).map (fun _ => (env, []))
  | Stmt.tryExcept b h =>
      match stepE L env b with
      | Except.ok r => Except.ok r
      | Except.error _ => stepE L env h

/-- Run a statement list under the fallible semantics: the final
environment and the printed output, or the first error raised. -/
def runE {ε : Type} (L : LibE ε) :
    List Stmt → PyEnv → Except ε (PyEnv × List String)
  | [], env => Except.ok (env, [])
  | s :: rest, env =>
      match stepE L env s with
      | Except.error e => Except.error e
      | Except.ok r =>
          match runE L rest r.1 with
          | Except.error e => Except.error e
          | Except.ok t => Except.ok (t.1, r.2 ++ t.2)

/-! ## Concrete library instances

Small executable instances of the modelled external library, used to
witness the contract-conditional theorems and to exhibit counterexamples.
`witLib` generates exactly `cap` new tokens and its pipeline bound matches
the direct call's 40; `cexLib` is identical except that its pipeline bound
is 1; `zeroLib` generates zero new tokens; `failLib` fails at checkpoint
resolution. -/

/-- A contract-satisfying library whose generation appends exactly `cap`
copies of token 7 and whose pipeline bound is 40. -/
def witLib : Lib where
  applyChatTemplate := fun _ => [1, 2, 3]
  generate := fun inp cap _ _ => inp ++ List.replicate cap 7
  decode := fun ts => String.mk (List.replicate ts.length 'a')
  pipeGenCap := 40
  pipeCall := fun _ _ => String.mk (List.replicate 40 'a')

lemma witLibSpec : LibSpec witLib := by
  constructor
  · exact fun inp cap cfg seed => ⟨List.replicate cap 7, rfl, by simp⟩
  · exact fun _ _ _ _ => rfl
  · rfl
  · intro msgs seed; rfl

/-- A contract-satisfying library identical to `witLib` except that the
pipeline's internal generation bound is 1 rather than 40. -/
def cexLib : Lib where
  applyChatTemplate := fun _ => [1, 2, 3]
  generate := fun inp cap _ _ => inp ++ List.replicate cap 7
  decode := fun ts => String.mk (List.replicate ts.length 'a')
  pipeGenCap := 1
  pipeCall := fun _ _ => "a"

lemma cexLibSpec : LibSpec cexLib := by
  constructor
  · exact fun inp cap cfg seed => ⟨List.replicate cap 7, rfl, by simp⟩
  · exact fun _ _ _ _ => rfl
  · rfl
  · intro msgs seed; rfl

/-- A contract-satisfying library whose generation produces zero new
tokens. -/
def zeroLib : Lib where
  applyChatTemplate := fun _ => [1, 2, 3]
  generate := fun inp _ _ _ => inp
  decode := fun ts => String.mk (List.replicate ts.length 'a')
  pipeGenCap := 0
  pipeCall := fun _ _ => ""

lemma zeroLibSpec : LibSpec zeroLib := by
  constructor
  · exact fun inp cap cfg seed => ⟨[], by simp [zeroLib], by simp⟩
  · exact fun _ _ _ _ => rfl
  · rfl
  · intro msgs seed; rfl

/-- A fallible library whose checkpoint resolution fails. -/
def failLib : LibE String where
  loadProcessor := fun _ => Except.error "boom"
  loadModel := fun _ => Except.ok ()
  applyChatTemplate := fun _ => Except.ok []
  generate := fun _ _ => Except.ok []
  decode := fun _ => Except.ok ""
  loadPipe := fun _ _ => Except.ok ()
  pipeCall := fun _ => Except.ok ""

/-! ## Bridge lemmas: statement-level runs in terms of the workflow
definitions -/

/-- A script run of the whole file prints the direct-API answer twice and
nothing else. -/
lemma scriptOutput_module (lib : Lib) (seed : Nat) :
    scriptOutput lib seed moduleStmts =
      [directAnswer lib seed, directAnswer lib seed] := rfl

/-- An interactive run of the whole file shows the direct-API answer and
the pipeline answer, twice each, in alternating order. -/
lemma replOutput_module (lib : Lib) (seed : Nat) :
    replOutput lib seed moduleStmts =
      [directAnswer lib seed, pipeAnswer lib seed,
       directAnswer lib seed, pipeAnswer lib seed] := rfl

/-! ## The claims -/

/-- C1: in the direct-API workflow the printed text is obtained from
`outputs[0]` by dropping exactly the first `input_ids`-length tokens: the
retained slice is exactly the newly generated tokens, the output being the
prompt span followed by that slice, so the prompt tokens are strictly
excluded from what is decoded and printed. -/
theorem direct_slice_excludes_prompt_tokens (lib : Lib) (hL : LibSpec lib)
    (seed : Nat) :
    ∃ new : List Nat,
      outputsFor lib messages seed = inputIdsFor lib messages ++ new ∧
      (outputsFor lib messages seed).drop (inputIdsFor lib messages).length
        = new ∧
      scriptOutput lib seed moduleStmts = [lib.decode new, lib.decode new] := by
  obtain ⟨new, hg, _⟩ := hL.gen_extends (inputIdsFor lib messages) 40 none seed
  have hout : outputsFor lib messages seed = inputIdsFor lib messages ++ new :=
    hg
  have hdrop : (outputsFor lib messages seed).drop
      (inputIdsFor lib messages).length = new := by
    rw [hout]; exact List.drop_left _ _
  refine ⟨new, hout, hdrop, ?_⟩
  rw [scriptOutput_module]
  unfold directAnswer directAnswerFor
  rw [hdrop]

/-- C1 witness at a concrete contract-satisfying library. -/
theorem direct_slice_excludes_prompt_tokens_witness :
    ∃ new : List Nat,
      outputsFor witLib messages 0 = inputIdsFor witLib messages ++ new ∧
      (outputsFor witLib messages 0).drop (inputIdsFor witLib messages).length
        = new ∧
      scriptOutput witLib 0 moduleStmts =
        [witLib.decode new, witLib.decode new] :=
  direct_slice_excludes_prompt_tokens witLib witLibSpec 0

/-- C2 counterexample: under a contract-satisfying library, a plain script
run's standard output does not contain the pipeline workflow's answer — the
bare expression statement's value is discarded by a non-interactive
interpreter — so the claim that the answer appears as process output on
every run of the script is false. -/
theorem pipe_answer_absent_from_script_output :
    LibSpec cexLib ∧
      pipeAnswer cexLib 0 ∉ scriptOutput cexLib 0 moduleStmts :=
  ⟨cexLibSpec, by decide⟩

/-- C2 amended: the pipeline call is a bare expression statement; its value
appears in the process output only under an interactive interpreter's
expression display, while a plain script run prints exactly the direct-API
answers. -/
theorem pipe_answer_appears_only_in_repl (lib : Lib) (seed : Nat) :
    pipeAnswer lib seed ∈ replOutput lib seed moduleStmts ∧
    scriptOutput lib seed moduleStmts =
      [directAnswer lib seed, directAnswer lib seed] := by
  refine ⟨?_, scriptOutput_module lib seed⟩
  rw [replOutput_module]
  simp

/-- C3: generation of new tokens is capped at 40: the output sequence
exceeds the input length by at most 40 tokens, and the retained new-token
slice holds at most 40 tokens. -/
theorem generation_capped_at_forty (lib : Lib) (hL : LibSpec lib)
    (seed : Nat) :
    (outputsFor lib messages seed).length ≤
      (inputIdsFor lib messages).length + 40 ∧
    ((outputsFor lib messages seed).drop
      (inputIdsFor lib messages).length).length ≤ 40 := by
  obtain ⟨new, hg, hle⟩ :=
    hL.gen_extends (inputIdsFor lib messages) 40 none seed
  have hout : outputsFor lib messages seed = inputIdsFor lib messages ++ new :=
    hg
  constructor
  · rw [hout, List.length_append]
    omega
  · rw [hout, List.drop_left]
    exact hle

/-- C3 witness at a concrete contract-satisfying library. -/
theorem generation_capped_at_forty_witness :
    (outputsFor witLib messages 0).length ≤
      (inputIdsFor witLib messages).length + 40 ∧
    ((outputsFor witLib messages 0).drop
      (inputIdsFor witLib messages).length).length ≤ 40 :=
  generation_capped_at_forty witLib witLibSpec 0

/-- C4: every message list constructed anywhere in the file is the same
literal: exactly one turn of role "user" whose content is exactly one image
part (carrying a URL string) followed by one text part (carrying a
string). -/
theorem message_lists_well_formed :
    (moduleStmts.filterMap fun s => match s with
      | Stmt.assignMessages m => some m
      | _ => none) = [messages, messages, messages, messages] ∧
    wellFormedList messages = true := by decide

/-- C5: determinism: neither call site sets sampling parameters, so two
runs with the same library (checkpoint) and the same message list but
different run seeds produce identical script output and identical
interactive output. -/
theorem workflows_deterministic (lib : Lib) (hL : LibSpec lib)
    (s1 s2 : Nat) :
    scriptOutput lib s1 moduleStmts = scriptOutput lib s2 moduleStmts ∧
    replOutput lib s1 moduleStmts = replOutput lib s2 moduleStmts := by
  have hd : directAnswer lib s1 = directAnswer lib s2 := by
    unfold directAnswer directAnswerFor outputsFor
    rw [hL.gen_greedy (inputIdsFor lib messages) 40 s1 s2]
  have hp : pipeAnswer lib s1 = pipeAnswer lib s2 := by
    unfold pipeAnswer pipeAnswerFor
    rw [hL.pipe_bundles messages s1, hL.pipe_bundles messages s2,
      hL.gen_greedy]
  rw [scriptOutput_module, scriptOutput_module, replOutput_module,
    replOutput_module, hd, hp]
  exact ⟨rfl, rfl⟩

/-- C5 witness: two concrete runs with different seeds coincide. -/
theorem workflows_deterministic_witness :
    scriptOutput witLib 0 moduleStmts = scriptOutput witLib 1 moduleStmts ∧
    replOutput witLib 0 moduleStmts = replOutput witLib 1 moduleStmts :=
  workflows_deterministic witLib witLibSpec 0 1

/-- C6: the file contains no exception handler, and a failure raised by an
external-library call — checkpoint resolution, chat-template formatting of
the message input, or generation — propagates unmodified: the run's result
is exactly the library's error. -/
theorem errors_propagate_unmodified :
    (moduleStmts.all fun s => !hasHandler s) = true ∧
    ∀ (ε : Type) (L : LibE ε) (e : ε),
      (L.loadProcessor qwenCkpt = Except.error e →
        runE L moduleStmts initEnv = Except.error e) ∧
      (L.loadProcessor qwenCkpt = Except.ok () →
        L.loadModel qwenCkpt = Except.ok () →
        L.applyChatTemplate messages = Except.error e →
        runE L moduleStmts initEnv = Except.error e) ∧
      (∀ ids : List Nat,
        L.loadProcessor qwenCkpt = Except.ok () →
        L.loadModel qwenCkpt = Except.ok () →
        L.applyChatTemplate messages = Except.ok ids →
        L.generate ids 40 = Except.error e →
        runE L moduleStmts initEnv = Except.error e) := by
  refine ⟨by decide, fun ε L e => ⟨?_, ?_, ?_⟩⟩
  · intro h
    simp [runE, stepE, moduleStmts, Except.map, h]
  · intro h1 h2 h3
    simp [runE, stepE, moduleStmts, Except.map, h1, h2, h3]
  · intro ids h1 h2 h3 h4
    simp [runE, stepE, moduleStmts, Except.map, h1, h2, h3, h4]

/-- C6 witness: a concrete failing library's error reaches the process
boundary unmodified. -/
theorem errors_propagate_unmodified_witness :
    runE failLib moduleStmts initEnv = Except.error "boom" :=
  (errors_propagate_unmodified.2 String failLib "boom").1 rfl

/-- C7 counterexample: a library satisfying the modelled contract whose
pipeline-internal generation bound is 1 while the direct call passes 40
makes the pipeline answer differ from the direct-API decoded answer, so the
claimed equality of the two workflows' answers does not hold in general. -/
theorem pipeline_and_direct_answers_can_differ :
    LibSpec cexLib ∧ pipeAnswer cexLib 0 ≠ directAnswer cexLib 0 :=
  ⟨cexLibSpec, by decide⟩

/-- C7 amended: each workflow section reads only variables it bound itself
(no shared state, no data flow between the sections), and the two answers
agree whenever the pipeline's internal generation bound equals the direct
call's 40. -/
theorem workflows_independent_and_agree_at_equal_caps :
    selfContained directSection = true ∧
    selfContained pipeSection = true ∧
    ∀ lib : Lib, LibSpec lib → lib.pipeGenCap = 40 →
      ∀ seed : Nat, pipeAnswer lib seed = directAnswer lib seed := by
  refine ⟨by decide, by decide, fun lib hL hcap seed => ?_⟩
  unfold pipeAnswer pipeAnswerFor
  rw [hL.pipe_bundles messages seed, hcap]
  rfl

/-- C7 witness: at a concrete library whose pipeline bound is 40 the two
answers coincide. -/
theorem workflows_agree_witness :
    pipeAnswer witLib 0 = directAnswer witLib 0 :=
  workflows_independent_and_agree_at_equal_caps.2.2 witLib witLibSpec rfl 0

/-- C8: for every well-formed message list (one image part then one text
part), if the external model produces at least one token under any positive
cap and decoding a non-empty token sequence yields non-empty text, then
both workflows' answers are non-empty strings. -/
theorem answers_nonempty_for_well_formed (lib : Lib) (hL : LibSpec lib)
    (hg : ∀ (inp : List Nat) (cap : Nat) (cfg : Option Nat) (seed : Nat),
      0 < cap → inp.length < (lib.generate inp cap cfg seed).length)
    (hd : ∀ ts : List Nat, ts ≠ [] → lib.decode ts ≠ "")
    (hc : 0 < lib.pipeGenCap)
    (msgs : List Message) (hm : wellFormedList msgs = true) (seed : Nat) :
    directAnswerFor lib msgs seed ≠ "" ∧ pipeAnswerFor lib msgs seed ≠ "" := by
  constructor
  · apply hd
    intro hnil
    rw [List.drop_eq_nil_iff] at hnil
    exact absurd hnil
      (Nat.not_le.mpr (hg (inputIdsFor lib msgs) 40 none seed (by omega)))
  · unfold pipeAnswerFor
    rw [hL.pipe_bundles msgs seed]
    apply hd
    intro hnil
    rw [List.drop_eq_nil_iff] at hnil
    exact absurd hnil
      (Nat.not_le.mpr
        (hg (lib.applyChatTemplate msgs) lib.pipeGenCap none seed hc))

/-- C8 witness at a concrete contract-satisfying library. -/
theorem answers_nonempty_witness :
    directAnswerFor witLib messages 0 ≠ "" ∧
      pipeAnswerFor witLib messages 0 ≠ "" :=
  answers_nonempty_for_well_formed witLib witLibSpec
    (fun inp cap cfg seed h => by
      simp only [witLib, List.length_append, List.length_replicate]
      omega)
    (fun ts h => by
      intro heq
      have hdata := congrArg String.data heq
      simp only [witLib, String.data] at hdata
      exact h (List.length_eq_zero.mp (by simpa using hdata)))
    (by decide) messages (by decide) 0

/-- C9: the suffix slice is total and in-bounds: the generation output is
at least as long as the input span, the prompt prefix followed by the slice
reconstructs the output, and when generation produces zero new tokens the
slice is empty and the decoded, printed text is the empty string. -/
theorem slice_total_and_empty_on_zero_new_tokens (lib : Lib)
    (hL : LibSpec lib) (msgs : List Message) (seed : Nat) :
    (inputIdsFor lib msgs).length ≤ (outputsFor lib msgs seed).length ∧
    inputIdsFor lib msgs ++
      (outputsFor lib msgs seed).drop (inputIdsFor lib msgs).length =
      outputsFor lib msgs seed ∧
    ((outputsFor lib msgs seed).length = (inputIdsFor lib msgs).length →
      (outputsFor lib msgs seed).drop (inputIdsFor lib msgs).length = [] ∧
      directAnswerFor lib msgs seed = "") := by
  obtain ⟨new, hg, _⟩ := hL.gen_extends (inputIdsFor lib msgs) 40 none seed
  have hout : outputsFor lib msgs seed = inputIdsFor lib msgs ++ new := hg
  refine ⟨?_, ?_, ?_⟩
  · rw [hout, List.length_append]
    omega
  · rw [hout, List.drop_left]
  · intro hlen
    rw [hout, List.length_append] at hlen
    have hnil : new = [] := List.length_eq_zero.mp (by omega)
    have hdrop : (outputsFor lib msgs seed).drop
        (inputIdsFor lib msgs).length = [] := by
      rw [hout, List.drop_left, hnil]
    refine ⟨hdrop, ?_⟩
    unfold directAnswerFor
    rw [hdrop, hL.decode_nil]

/-- C9 witness: a contract-satisfying library that generates zero new
tokens yields an empty slice and an empty decoded answer. -/
theorem slice_empty_on_zero_new_tokens_witness :
    (outputsFor zeroLib messages 0).drop
      (inputIdsFor zeroLib messages).length = [] ∧
    directAnswerFor zeroLib messages 0 = "" :=
  (slice_total_and_empty_on_zero_new_tokens zeroLib zeroLibSpec
    messages 0).2.2 rfl

/-- C10: the file is two identical copies of the
direct-API-then-pipeline round; a round's run does not depend on the
incoming environment (every variable is rebound before use), so the second
round behaves identically to the first and the whole file's output — both
the script prints and the interactive display — is the round's output
twice. -/
theorem file_is_two_identical_rounds :
    moduleStmts = moduleRound ++ moduleRound ∧
    (∀ (lib : Lib) (seed : Nat) (env env' : PyEnv),
      run lib seed moduleRound env = run lib seed moduleRound env') ∧
    ∀ (lib : Lib) (seed : Nat),
      scriptOutput lib seed moduleStmts =
        scriptOutput lib seed moduleRound ++
          scriptOutput lib seed moduleRound ∧
      replOutput lib seed moduleStmts =
        replOutput lib seed moduleRound ++ replOutput lib seed moduleRound :=
  ⟨rfl, fun _ _ _ _ => rfl, fun _ _ => ⟨rfl, rfl⟩⟩

end Qwen
